import Mathlib

/-!
Shallow embedding of `src/app.py` (Biblioteca de Facas): a single SQLite
table `facas`, an uploads directory, a thumbnails directory, and the
functions `add_faca_db`, `get_facas_db`, `update_faca_db`, `delete_faca_db`,
`save_upload`, `generate_pdf_thumbnail`, `get_pdf_preview_images`, plus the
add-form and edit-form submit handlers.

Modelling conventions: machine state is explicit (`AppState` carries the
table, a directory listing for `uploads/` and one for `thumbs/`, and the
AUTOINCREMENT counter).  Directories are listings of stored filenames;
writing a file inserts its name, `Path.unlink` after an existence check is
`List.erase`.  External inputs that the code reads from its environment
(the clock string from `datetime.now().isoformat`, the `uuid4().hex` tokens,
the parse result that `fitz.open` produces for a file's bytes) are passed
as explicit arguments.  A PDF document is its parse result: `none` when
`fitz.open` (or a later page access) raises — the code catches every such
exception — or `some pages` where `pages` lists the rendered PNG bytes of
each page in order.  Fallible Python code that returns a value or raises a
caught exception is a total Lean function returning `Option`/`Except`.
-/

namespace Facas

/-- Row of the `facas` table after the additive migrations in `init_db`:
base columns `id, name, description, uploaded_at` from `CREATE TABLE`,
then `pdf_filename, pdf_original_name, thumb, cdr_filename,
cdr_original_name` added by the `ALTER TABLE` statements.  Nullable
columns are `Option`; `name` is declared `NOT NULL` and `uploaded_at` is
always written by `add_faca_db`. -/
structure Faca where
  id : Nat
  name : String
  description : Option String
  pdf_filename : Option String
  pdf_original_name : Option String
  thumb : Option String
  cdr_filename : Option String
  cdr_original_name : Option String
  uploaded_at : String
deriving DecidableEq, Repr

/-- Whole-app state: the `facas` table rows in insertion order, the
AUTOINCREMENT counter, and the filename listings of `UPLOAD_DIR`
(`uploads/`) and `THUMB_DIR` (`thumbs/`). -/
structure AppState where
  table : List Faca
  nextId : Nat
  uploadDir : List String
  thumbDir : List String
deriving DecidableEq, Repr

/-- Writing a file under a name: the directory listing gains the name,
and writing under an existing name overwrites (the listing is unchanged). -/
def insertFile (f : String) (d : List String) : List String :=
  if f ∈ d then d else f :: d

/-- Function `add_faca_db(name, description, pdf_info, cdr_info, thumb_path)`
from `src/app.py`: computes `uploaded_at` from the clock (here the explicit
argument `now`), splits the optional `(stored, original)` pairs, and runs a
single unconditional `INSERT` — there is no duplicate check in this file. -/
def add_faca_db (st : AppState) (now : String) (name : String)
    (description : Option String) (pdf_info cdr_info : Option (String × String))
    (thumb_path : Option String) : AppState :=
  { st with
      table := st.table ++
        [{ id := st.nextId, name := name, description := description,
           pdf_filename := pdf_info.map (fun p => p.1),
           pdf_original_name := pdf_info.map (fun p => p.2),
           thumb := thumb_path,
           cdr_filename := cdr_info.map (fun p => p.1),
           cdr_original_name := cdr_info.map (fun p => p.2),
           uploaded_at := now }],
      nextId := st.nextId + 1 }

/-- ASCII lower-casing, the folding SQLite's default `LIKE` applies to both
sides of a comparison (SQLite's `LIKE` is case-insensitive for the ASCII
range only). -/
def lowerAscii (c : Char) : Char :=
  if 'A' ≤ c && c ≤ 'Z' then Char.ofNat (c.toNat + 32) else c

/-- SQLite `LIKE` pattern matching (no `ESCAPE` clause, as in the queries of
`get_facas_db`): `%` matches any sequence of characters, `_` matches exactly
one character, every other pattern character matches a text character equal
to it up to ASCII case. -/
def likeMatch : List Char → List Char → Bool
  | [], s => s.isEmpty
  | '%' :: ps, s => s.tails.any (fun t => likeMatch ps t)
  | '_' :: _, [] => false
  | '_' :: ps, _ :: cs => likeMatch ps cs
  | _ :: _, [] => false
  | p :: ps, c :: cs => (lowerAscii p == lowerAscii c) && likeMatch ps cs

/-- Pattern `f"%{search}%"` built by `get_facas_db` for its `LIKE` queries. -/
def likePattern (search : String) : List Char :=
  '%' :: (search.data ++ ['%'])

/-- Row predicate of the query
`SELECT * FROM facas WHERE name LIKE ? OR description LIKE ?`: a `NULL`
description makes its disjunct `NULL`, never true. -/
def likeRow (search : String) (r : Faca) : Bool :=
  likeMatch (likePattern search) r.name.data ||
    (match r.description with
     | some d => likeMatch (likePattern search) d.data
     | none => false)

/-- Comparison realising `ORDER BY uploaded_at DESC`. -/
def uploadedGe (a b : Faca) : Prop := b.uploaded_at ≤ a.uploaded_at

instance : DecidableRel uploadedGe := fun a b =>
  inferInstanceAs (Decidable (b.uploaded_at ≤ a.uploaded_at))

instance : IsTotal Faca uploadedGe := ⟨fun a b => le_total b.uploaded_at a.uploaded_at⟩

instance : IsTrans Faca uploadedGe := ⟨fun _ _ _ h1 h2 => le_trans h2 h1⟩

/-- Function `get_facas_db(search)` from `src/app.py` at row level: with a
non-empty search string (`if search:`) it filters by the `LIKE` predicate,
otherwise it selects everything; either way the engine orders by
`uploaded_at DESC` (realised here by an insertion sort under `uploadedGe`).
The column-presence guard at the top of the Python function is the
always-taken branch for the schema of this file and is omitted. -/
def get_facas_db (st : AppState) (search : String) : List Faca :=
  if search = "" then List.insertionSort uploadedGe st.table
  else List.insertionSort uploadedGe (st.table.filter (likeRow search))

/-- Per-row effect of the `UPDATE` statement assembled by `update_faca_db`:
`name` and `description` are always in the `SET` clause; `pdf_filename`,
`pdf_original_name` and `thumb` are added only when `pdf_info` is truthy;
`cdr_filename` and `cdr_original_name` only when `cdr_info` is truthy. -/
def updateRow (name : String) (description : Option String)
    (pdf_info cdr_info : Option (String × String)) (thumb_path : Option String)
    (r : Faca) : Faca :=
  let r1 := { r with name := name, description := description }
  let r2 :=
    match pdf_info with
    | some p => { r1 with pdf_filename := some p.1, pdf_original_name := some p.2,
                          thumb := thumb_path }
    | none => r1
  match cdr_info with
  | some p => { r2 with cdr_filename := some p.1, cdr_original_name := some p.2 }
  | none => r2

/-- Function `update_faca_db(faca_id, name, description, pdf_info, cdr_info,
thumb_path)` from `src/app.py`: `UPDATE facas SET ... WHERE id=?` rewrites
every row whose `id` matches and leaves the others untouched. -/
def update_faca_db (st : AppState) (faca_id : Nat) (name : String)
    (description : Option String) (pdf_info cdr_info : Option (String × String))
    (thumb_path : Option String) : AppState :=
  { st with
      table := st.table.map (fun r =>
        if r.id == faca_id then updateRow name description pdf_info cdr_info thumb_path r
        else r) }

/-- Function `delete_faca_db(faca_id)` from `src/app.py`: fetch one row with
the id; if present, for each of `pdf_filename, thumb, cdr_filename` that is
non-NULL unlink `UPLOAD_DIR / f` when it exists (note the code builds every
path under `UPLOAD_DIR`, including for `thumb`); then `DELETE FROM facas
WHERE id=?` in both cases. -/
def delete_faca_db (st : AppState) (faca_id : Nat) : AppState :=
  match st.table.find? (fun r => r.id == faca_id) with
  | some row =>
    { st with
        uploadDir :=
          [row.pdf_filename, row.thumb, row.cdr_filename].foldl
            (fun d g =>
              match g with
              | some f => d.erase f
              | none => d) st.uploadDir,
        table := st.table.filter (fun r => r.id != faca_id) }
  | none => { st with table := st.table.filter (fun r => r.id != faca_id) }

/-- An uploaded file as the handlers see it: its user-facing name, the
lower-cased suffix `Path(name).suffix.lower()` (kept as a field rather than
recomputed), and the parse result its bytes produce when later opened as a
PDF (`none`: `fitz.open` raises on it). -/
structure Upload where
  origName : String
  ext : String
  doc : Option (List String)
deriving DecidableEq, Repr

/-- Function `save_upload(uploaded_file)` from `src/app.py`: stores the
bytes under `f"{uuid4().hex}{ext}"` in `uploads/` and returns
`(stored_name, original_name)`.  The fresh hex token is the explicit
argument `uid`. -/
def save_upload (uploadDir : List String) (uid : String) (u : Upload) :
    (String × String) × List String :=
  let stored_name := uid ++ u.ext
  ((stored_name, u.origName), insertFile stored_name uploadDir)

/-- A file on disk as `generate_pdf_thumbnail` and `get_pdf_preview_images`
receive it: its path stem (`file_path.stem`) and its parse result. -/
structure FsFile where
  stem : String
  doc : Option (List String)
deriving DecidableEq, Repr

/-- Function `generate_pdf_thumbnail(file_path, page_number=0, zoom=2.0)`
from `src/app.py`, returning the result together with the updated
`THUMB_DIR` listing.  The whole body sits in `try/except Exception: return
None`, so an unparseable file (`doc = none`) or an out-of-range
`load_page` yields `none` rather than an exception; a zero-page document
returns `none` explicitly; otherwise the page is rendered and written to
`THUMB_DIR / f"{file_path.stem}_p{page_number}.png"` and that name is
returned. -/
def generate_pdf_thumbnail (thumbDir : List String) (file : FsFile)
    (page_number : Nat := 0) : Option String × List String :=
  match file.doc with
  | none => (none, thumbDir)
  | some pages =>
    if pages.length = 0 then (none, thumbDir)
    else
      match pages[page_number]? with
      | none => (none, thumbDir)
      | some _pix =>
        let thumb_name := file.stem ++ "_p" ++ toString page_number ++ ".png"
        (some thumb_name, insertFile thumb_name thumbDir)

/-- Function `get_pdf_preview_images(file_path, max_pages=3, zoom=1.5)` from
`src/app.py`: renders pages `0 .. min(max_pages, page_count) - 1` in order
and returns their PNG bytes, writing nothing; an unparseable document gives
`[]` (the `except` swallows the `fitz.open` failure). -/
def get_pdf_preview_images (file : FsFile) (max_pages : Nat := 3) : List String :=
  match file.doc with
  | none => []
  | some pages => pages.take (min max_pages pages.length)

/-- Submit branch of the `form_add` handler in `src/app.py`: an empty name
or a missing PDF is rejected with an inline error and nothing is persisted;
otherwise the PDF (and the optional CDR) are saved via `save_upload`, a
thumbnail is generated from the stored PDF (whose stem is the uuid token),
and `add_faca_db` inserts the row.  The fresh uuid tokens and the clock
string are explicit arguments. -/
def form_add_submit (st : AppState) (now uidPdf uidCdr : String)
    (name description : String) (pdf_file cdr_file : Option Upload) :
    Except String AppState :=
  if name = "" then Except.error "É necessário informar um nome."
  else
    match pdf_file with
    | none => Except.error "É necessário enviar o arquivo PDF."
    | some pf =>
      let saved := save_upload st.uploadDir uidPdf pf
      let gen := generate_pdf_thumbnail st.thumbDir { stem := uidPdf, doc := pf.doc } 0
      match cdr_file with
      | some cf =>
        let saved2 := save_upload saved.2 uidCdr cf
        Except.ok (add_faca_db
          { st with uploadDir := saved2.2, thumbDir := gen.2 }
          now name (some description) (some saved.1) (some saved2.1) gen.1)
      | none =>
        Except.ok (add_faca_db
          { st with uploadDir := saved.2, thumbDir := gen.2 }
          now name (some description) (some saved.1) none gen.1)

/-- Submit branch of the per-entry edit form in `src/app.py` for the entry
`f`: `thumb` starts as the entry's stored thumb; replacing the PDF saves the
new file, regenerates the thumbnail from it, and best-effort-unlinks the old
PDF (from `uploads/`) and the old thumbnail (from `thumbs/`); replacing the
CDR saves the new file and best-effort-unlinks the old one; finally
`update_faca_db` is called with whatever `pdf_info`, `cdr_info` and `thumb`
now hold.  There is no validation of `new_name`. -/
def form_edit_submit (st : AppState) (uidPdf uidCdr : String) (f : Faca)
    (new_name new_desc : String) (replace_pdf replace_cdr : Option Upload) :
    AppState :=
  let pdfStep : Option (String × String) × Option String × List String × List String :=
    match replace_pdf with
    | some pu =>
      let saved := save_upload st.uploadDir uidPdf pu
      let gen := generate_pdf_thumbnail st.thumbDir { stem := uidPdf, doc := pu.doc } 0
      let ud :=
        match f.pdf_filename with
        | some old => saved.2.erase old
        | none => saved.2
      let td :=
        match f.thumb with
        | some oldt => gen.2.erase oldt
        | none => gen.2
      (some saved.1, gen.1, ud, td)
    | none => (none, f.thumb, st.uploadDir, st.thumbDir)
  let cdrStep : Option (String × String) × List String :=
    match replace_cdr with
    | some cu =>
      let saved := save_upload pdfStep.2.2.1 uidCdr cu
      let ud :=
        match f.cdr_filename with
        | some old => saved.2.erase old
        | none => saved.2
      (some saved.1, ud)
    | none => (none, pdfStep.2.2.1)
  update_faca_db
    { st with uploadDir := cdrStep.2, thumbDir := pdfStep.2.2.2 }
    f.id new_name (some new_desc) pdfStep.1 cdrStep.1 pdfStep.2.1

/-- Duplicate test of the latest iteration's `create` (see `create_latest`):
some existing row has the same `name`, or the same stored PDF filename as
the one about to be inserted. -/
def isDuplicate (table : List Faca) (name : String)
    (pdf_info : Option (String × String)) : Bool :=
  table.any (fun r =>
    r.name == name ||
      (match pdf_info with
       | some p => r.pdf_filename == some p.1
       | none => false))

/-- Modelled from the spec: the latest iteration's `create` is not under
`src/` — `src/app.py` is an earlier iteration whose `add_faca_db` inserts
unconditionally.  The spec: "`create(entry) → id`: inserts a new row; the
latest iteration additionally fails with a 'duplicate' error if an entry
already exists with the same name OR the same stored PDF filename".  On the
duplicate branch the insert is never executed, so no state is produced. -/
def create_latest (st : AppState) (now name : String) (description : Option String)
    (pdf_info cdr_info : Option (String × String)) (thumb_path : Option String) :
    Except String AppState :=
  if isDuplicate st.table name pdf_info then Except.error "duplicate"
  else Except.ok (add_faca_db st now name description pdf_info cdr_info thumb_path)

/-- Substring containment exactly as the claim words it ("contains term as a
substring"), used to compare the spec's description of search with the
code's `LIKE` behaviour. -/
def specContainsSubstring (term s : String) : Bool :=
  s.data.tails.any (fun t => term.data.isPrefixOf t)

end Facas

namespace Facas

/-! Helper lemmas shared by the claim theorems. -/

/-- Writing the same thumbnail name twice leaves the directory as after the
first write. -/
theorem insertFile_idem (f : String) (d : List String) :
    insertFile f (insertFile f d) = insertFile f d := by
  unfold insertFile
  by_cases h : f ∈ d
  · simp [h]
  · simp [h, List.mem_cons]

/-- A row matched by the `WHERE id=?` clause appears in the updated table as
its `updateRow` image. -/
theorem mem_update_table (st : AppState) (faca_id : Nat) (name : String)
    (description : Option String) (pdf_info cdr_info : Option (String × String))
    (thumb_path : Option String) {r : Faca} (hr : r ∈ st.table)
    (hid : r.id = faca_id) :
    updateRow name description pdf_info cdr_info thumb_path r ∈
      (update_faca_db st faca_id name description pdf_info cdr_info thumb_path).table := by
  have hmem := List.mem_map_of_mem
    (fun x : Faca =>
      if x.id == faca_id then updateRow name description pdf_info cdr_info thumb_path x
      else x) hr
  simpa [update_faca_db, hid] using hmem

/-! Concrete sample rows and states used by witnesses and counterexamples. -/

/-- Sample row: a faca with a stored PDF and a generated thumbnail. -/
def facaA : Faca :=
  { id := 1, name := "A", description := none,
    pdf_filename := some "a.pdf", pdf_original_name := some "orig.pdf",
    thumb := some "a_p0.png", cdr_filename := none, cdr_original_name := none,
    uploaded_at := "2024-01-01 10:00:00" }

/-- Sample state holding `facaA`, its PDF in `uploads/` and its thumbnail in
`thumbs/`. -/
def stA : AppState :=
  { table := [facaA], nextId := 2, uploadDir := ["a.pdf"], thumbDir := ["a_p0.png"] }

/-- Sample row with lower-case name `a` and no description, for the search
counterexample. -/
def facaLower : Faca :=
  { id := 1, name := "a", description := none,
    pdf_filename := none, pdf_original_name := none,
    thumb := none, cdr_filename := none, cdr_original_name := none,
    uploaded_at := "2024-01-01 10:00:00" }

/-- Sample state holding only `facaLower`. -/
def stLower : AppState :=
  { table := [facaLower], nextId := 2, uploadDir := [], thumbDir := [] }

/-- Sample two-page parsed PDF file. -/
def fGood : FsFile := { stem := "doc1", doc := some ["png0", "png1"] }

end Facas

namespace Facas

/-- Claim C5: for every existing entry, `update_faca_db` called with no new
PDF info and no new CDR info leaves `pdf_filename`, `pdf_original_name`,
`cdr_filename`, `cdr_original_name`, `thumb` and `uploaded_at` (and `id`)
unchanged while overwriting `name` and `description` — the asset fields are
simply absent from the generated `SET` clause, whatever `thumb_path` was
passed. -/
theorem update_no_new_assets_frame (st : AppState) (faca_id : Nat)
    (name : String) (description : Option String) (thumb_path : Option String)
    (r : Faca) (hr : r ∈ st.table) (hid : r.id = faca_id) :
    ∃ r' ∈ (update_faca_db st faca_id name description none none thumb_path).table,
      r'.id = r.id ∧ r'.name = name ∧ r'.description = description ∧
      r'.pdf_filename = r.pdf_filename ∧ r'.pdf_original_name = r.pdf_original_name ∧
      r'.cdr_filename = r.cdr_filename ∧ r'.cdr_original_name = r.cdr_original_name ∧
      r'.thumb = r.thumb ∧ r'.uploaded_at = r.uploaded_at := by
  refine ⟨updateRow name description none none thumb_path r,
    mem_update_table st faca_id name description none none thumb_path hr hid, ?_⟩
  simp [updateRow]

/-- Witness for C5 at a concrete state: updating `facaA` with a new name and
description and no asset info keeps all six asset/timestamp fields. -/
theorem update_no_new_assets_frame_witness :
    ∃ r' ∈ (update_faca_db stA 1 "B" (some "nova") none none (some "other.png")).table,
      r'.id = facaA.id ∧ r'.name = "B" ∧ r'.description = some "nova" ∧
      r'.pdf_filename = facaA.pdf_filename ∧
      r'.pdf_original_name = facaA.pdf_original_name ∧
      r'.cdr_filename = facaA.cdr_filename ∧
      r'.cdr_original_name = facaA.cdr_original_name ∧
      r'.thumb = facaA.thumb ∧ r'.uploaded_at = facaA.uploaded_at :=
  update_no_new_assets_frame stA 1 "B" (some "nova") (some "other.png") facaA
    (by decide) rfl

/-- Claim C6: `generate_pdf_thumbnail` on a file that cannot be parsed
(`fitz.open` raises, caught) or whose document has zero pages returns `none`
("no thumbnail") — the model is a total function, so no exception escapes —
and on success it returns the thumbnail filename. -/
theorem generate_pdf_thumbnail_graceful (thumbDir : List String) (file : FsFile)
    (p : Nat) :
    (file.doc = none → (generate_pdf_thumbnail thumbDir file p).1 = none) ∧
    (∀ pages, file.doc = some pages → pages.length = 0 →
      (generate_pdf_thumbnail thumbDir file p).1 = none) ∧
    (∀ pages, file.doc = some pages → p < pages.length →
      (generate_pdf_thumbnail thumbDir file p).1 =
        some (file.stem ++ "_p" ++ toString p ++ ".png")) := by
  refine ⟨?_, ?_, ?_⟩
  · intro h
    simp [generate_pdf_thumbnail, h]
  · intro pages h hlen
    simp [generate_pdf_thumbnail, h, hlen]
  · intro pages h hp
    have h0 : ¬pages.length = 0 := by omega
    have hg : pages[p]? = some pages[p] := List.getElem?_eq_getElem hp
    simp [generate_pdf_thumbnail, h, h0, hg]

/-- Witness for C6 at concrete inputs: an unreadable file and a zero-page
document give `none`, the two-page `fGood` gives its thumbnail name. -/
theorem generate_pdf_thumbnail_graceful_witness :
    (generate_pdf_thumbnail [] { stem := "bad", doc := none } 0).1 = none ∧
    (generate_pdf_thumbnail [] { stem := "empty", doc := some [] } 0).1 = none ∧
    (generate_pdf_thumbnail [] fGood 0).1 =
      some (fGood.stem ++ "_p" ++ toString 0 ++ ".png") :=
  ⟨(generate_pdf_thumbnail_graceful [] { stem := "bad", doc := none } 0).1 rfl,
   (generate_pdf_thumbnail_graceful [] { stem := "empty", doc := some [] } 0).2.1 [] rfl rfl,
   (generate_pdf_thumbnail_graceful [] fGood 0).2.2 ["png0", "png1"] rfl (by decide)⟩

/-- Claim C7: `delete_faca_db` on an id held by no row is a no-op — the
`SELECT` finds nothing so no file is touched, and the `DELETE` removes no
row; no error is raised (the model is total). -/
theorem delete_faca_db_missing_id_noop (st : AppState) (faca_id : Nat)
    (h : ∀ r ∈ st.table, r.id ≠ faca_id) :
    delete_faca_db st faca_id = st := by
  have hf : st.table.find? (fun r => r.id == faca_id) = none := by
    apply List.find?_eq_none.mpr
    intro x hx
    simpa using h x hx
  have hfil : st.table.filter (fun r => r.id != faca_id) = st.table := by
    apply List.filter_eq_self.mpr
    intro x hx
    simpa using h x hx
  simp [delete_faca_db, hf, hfil]

/-- Witness for C7: deleting the absent id 5 from `stA` leaves the state
exactly as it was. -/
theorem delete_faca_db_missing_id_noop_witness : delete_faca_db stA 5 = stA :=
  delete_faca_db_missing_id_noop stA 5 (by decide)

/-- Claim C8: `get_pdf_preview_images` on a parseable document returns
exactly `min max_pages page_count` page images, in page order from page 0
(position `i` of the result is page `i`), and on an unparseable document it
returns `[]`; the function only reads — it takes no directory state and
writes no file. -/
theorem get_pdf_preview_images_spec (file : FsFile) (max_pages : Nat) :
    (file.doc = none → get_pdf_preview_images file max_pages = []) ∧
    (∀ pages, file.doc = some pages →
      (get_pdf_preview_images file max_pages).length = min max_pages pages.length ∧
      ∀ i : Nat, (get_pdf_preview_images file max_pages)[i]? =
        if i < min max_pages pages.length then pages[i]? else none) := by
  constructor
  · intro h
    simp [get_pdf_preview_images, h]
  · intro pages h
    constructor
    · simp [get_pdf_preview_images, h, List.length_take]
    · intro i
      simp [get_pdf_preview_images, h, List.getElem?_take]

/-- Witness for C8: previewing the two-page `fGood` with `max_pages = 3`
returns `min 3 2` images and page `i` at position `i`. -/
theorem get_pdf_preview_images_spec_witness :
    (get_pdf_preview_images fGood 3).length = min 3 (["png0", "png1"] : List String).length ∧
    ∀ i : Nat, (get_pdf_preview_images fGood 3)[i]? =
      if i < min 3 (["png0", "png1"] : List String).length
      then (["png0", "png1"] : List String)[i]? else none :=
  (get_pdf_preview_images_spec fGood 3).2 ["png0", "png1"] rfl

/-- Claim C9: the thumbnail filename is `stem ++ "_p" ++ page ++ ".png"`, a
deterministic function of the source file's stem and the page index — it
does not depend on the thumbnail directory's contents — and regenerating for
the same source and page returns the same name and overwrites the same file,
so the operation is idempotent on the directory state. -/
theorem generate_pdf_thumbnail_name_deterministic (d d' : List String)
    (f : FsFile) (p : Nat) :
    (generate_pdf_thumbnail d f p).1 = (generate_pdf_thumbnail d' f p).1 ∧
    (∀ n, (generate_pdf_thumbnail d f p).1 = some n →
      n = f.stem ++ "_p" ++ toString p ++ ".png") ∧
    generate_pdf_thumbnail (generate_pdf_thumbnail d f p).2 f p =
      generate_pdf_thumbnail d f p := by
  cases hdoc : f.doc with
  | none =>
    simp [generate_pdf_thumbnail, hdoc]
  | some pages =>
    by_cases h0 : pages.length = 0
    · simp [generate_pdf_thumbnail, hdoc, h0]
    · cases hg : pages[p]? with
      | none => simp [generate_pdf_thumbnail, hdoc, h0, hg]
      | some pix =>
        refine ⟨by simp [generate_pdf_thumbnail, hdoc, h0, hg], ?_, ?_⟩
        · intro n hn
          simp [generate_pdf_thumbnail, hdoc, h0, hg] at hn
          exact hn.symm
        · simp [generate_pdf_thumbnail, hdoc, h0, hg, insertFile_idem]

/-- Witness for C9: for `fGood` and page 0 the produced name is
`doc1_p0.png` however the directory looked before. -/
theorem generate_pdf_thumbnail_name_deterministic_witness :
    "doc1_p0.png" = fGood.stem ++ "_p" ++ toString 0 ++ ".png" :=
  (generate_pdf_thumbnail_name_deterministic [] ["doc1_p0.png"] fGood 0).2.1
    "doc1_p0.png" (by decide)

/-- Claim C10: when `update_faca_db` is given new PDF info, the matched
row's `thumb` becomes exactly the supplied `thumb_path` — including `none`
when thumbnail generation for the replacement failed — and when no PDF info
is given, `thumb` (with the other PDF fields) is left untouched whatever
`thumb_path` was passed. -/
theorem update_thumb_overwrite_semantics (st : AppState) (faca_id : Nat)
    (name : String) (description : Option String)
    (cdr_info : Option (String × String)) (thumb_path : Option String)
    (r : Faca) (hr : r ∈ st.table) (hid : r.id = faca_id) :
    (∀ p : String × String,
      ∃ r' ∈ (update_faca_db st faca_id name description (some p) cdr_info thumb_path).table,
        r'.thumb = thumb_path) ∧
    (∃ r' ∈ (update_faca_db st faca_id name description none cdr_info thumb_path).table,
      r'.thumb = r.thumb ∧ r'.pdf_filename = r.pdf_filename ∧
      r'.pdf_original_name = r.pdf_original_name) := by
  constructor
  · intro p
    refine ⟨updateRow name description (some p) cdr_info thumb_path r,
      mem_update_table st faca_id name description (some p) cdr_info thumb_path hr hid, ?_⟩
    cases cdr_info <;> simp [updateRow]
  · refine ⟨updateRow name description none cdr_info thumb_path r,
      mem_update_table st faca_id name description none cdr_info thumb_path hr hid, ?_⟩
    cases cdr_info <;> simp [updateRow]

/-- Witness for C10 with `thumb_path = none`: replacing the PDF of `facaA`
while generation failed stores `thumb = none`; the same update without PDF
info keeps the old thumbnail. -/
theorem update_thumb_overwrite_semantics_witness :
    (∀ p : String × String,
      ∃ r' ∈ (update_faca_db stA 1 "B" (some "d") (some p) none none).table,
        r'.thumb = none) ∧
    (∃ r' ∈ (update_faca_db stA 1 "B" (some "d") none none none).table,
      r'.thumb = facaA.thumb ∧ r'.pdf_filename = facaA.pdf_filename ∧
      r'.pdf_original_name = facaA.pdf_original_name) :=
  update_thumb_overwrite_semantics stA 1 "B" (some "d") none none facaA
    (by decide) rfl

end Facas

namespace Facas

/-- Claim C1 (against the spec-modelled `create_latest`, see its doc
comment): a create whose name or stored PDF filename is already present
fails with the duplicate error — and, the error branch running before the
`INSERT`, no row is inserted — while a create with a fresh pair succeeds and
appends exactly one new row carrying the given data. -/
theorem create_latest_duplicate_spec (st : AppState) (now name : String)
    (description : Option String) (pdf_info cdr_info : Option (String × String))
    (thumb_path : Option String) :
    ((∃ r ∈ st.table, r.name = name ∨
        ∃ p, pdf_info = some p ∧ r.pdf_filename = some p.1) →
      create_latest st now name description pdf_info cdr_info thumb_path =
        Except.error "duplicate") ∧
    ((∀ r ∈ st.table, r.name ≠ name ∧
        ∀ p, pdf_info = some p → r.pdf_filename ≠ some p.1) →
      create_latest st now name description pdf_info cdr_info thumb_path =
        Except.ok (add_faca_db st now name description pdf_info cdr_info thumb_path) ∧
      (add_faca_db st now name description pdf_info cdr_info thumb_path).table =
        st.table ++
          [{ id := st.nextId, name := name, description := description,
             pdf_filename := pdf_info.map (fun p => p.1),
             pdf_original_name := pdf_info.map (fun p => p.2),
             thumb := thumb_path,
             cdr_filename := cdr_info.map (fun p => p.1),
             cdr_original_name := cdr_info.map (fun p => p.2),
             uploaded_at := now }]) := by
  constructor
  · rintro ⟨r, hr, hdup⟩
    have hd : isDuplicate st.table name pdf_info = true := by
      apply List.any_eq_true.mpr
      refine ⟨r, hr, ?_⟩
      rcases hdup with h | ⟨p, hp, hpf⟩
      · simp [h]
      · subst hp
        simp [hpf]
    simp [create_latest, hd]
  · intro h
    have hd : isDuplicate st.table name pdf_info = false := by
      rw [Bool.eq_false_iff]
      intro hany
      rcases List.any_eq_true.mp hany with ⟨r, hr, hpred⟩
      rcases h r hr with ⟨hname, hpdf⟩
      rcases Bool.or_eq_true_iff.mp hpred with h1 | h2
      · exact hname (by simpa using h1)
      · cases hp : pdf_info with
        | none => rw [hp] at h2; simp at h2
        | some p =>
          rw [hp] at h2
          exact hpdf p hp (by simpa using h2)
    exact ⟨by simp [create_latest, hd], rfl⟩

/-- Witness for C1: inserting a second entry named `A` (the name `facaA`
already holds) fails with the duplicate error, while a fresh (name, PDF)
pair is accepted. -/
theorem create_latest_duplicate_spec_witness :
    create_latest stA "2024-01-02 09:00:00" "A" none (some ("b.pdf", "o.pdf"))
        none none = Except.error "duplicate" ∧
    create_latest stA "2024-01-02 09:00:00" "B" none (some ("b.pdf", "o.pdf"))
        none none =
      Except.ok (add_faca_db stA "2024-01-02 09:00:00" "B" none
        (some ("b.pdf", "o.pdf")) none none) :=
  ⟨(create_latest_duplicate_spec stA "2024-01-02 09:00:00" "A" none
      (some ("b.pdf", "o.pdf")) none none).1 ⟨facaA, by decide, Or.inl rfl⟩,
   ((create_latest_duplicate_spec stA "2024-01-02 09:00:00" "B" none
      (some ("b.pdf", "o.pdf")) none none).2 (by decide)).1⟩

/-- Claim C2, evaluated at the failing input: deleting entry 1 of `stA`
removes the row and removes the stored PDF from `uploads/`, but the
generated thumbnail `a_p0.png` is still listed in `thumbs/` afterwards —
`delete_faca_db` unlinks every associated filename under `UPLOAD_DIR`, while
thumbnails live in `THUMB_DIR`, so the claimed removal of the thumbnail
never happens. -/
theorem delete_faca_db_misses_thumbnail :
    (delete_faca_db stA 1).table = [] ∧
    (delete_faca_db stA 1).uploadDir = [] ∧
    (delete_faca_db stA 1).thumbDir = ["a_p0.png"] := by
  decide

/-- Claim C3, counterexample: starting from a state whose single entry has
the non-empty name `A`, submitting the edit form with the name field cleared
writes an entry whose name is the empty string — the edit path never
validates the name, so the non-empty-name invariant is not preserved by
update. -/
theorem update_writes_empty_name :
    ((form_edit_submit stA "u1" "u2" facaA "" "d" none none).table.map
      Faca.name) = [""] := by
  decide

/-- Claim C3 as amended: creation does reject an empty name (the add form
errors out before anything is persisted), but `update_faca_db` writes
whatever name it is given — including the empty string — so the invariant is
enforced at creation only. -/
theorem name_validation_semantics (st : AppState) :
    (∀ now uidPdf uidCdr description pdf_file cdr_file,
      form_add_submit st now uidPdf uidCdr "" description pdf_file cdr_file =
        Except.error "É necessário informar um nome.") ∧
    (∀ faca_id name description pdf_info cdr_info thumb_path,
      ∀ r ∈ st.table, r.id = faca_id →
        updateRow name description pdf_info cdr_info thumb_path r ∈
          (update_faca_db st faca_id name description pdf_info cdr_info thumb_path).table ∧
        (updateRow name description pdf_info cdr_info thumb_path r).name = name) := by
  constructor
  · intro now uidPdf uidCdr description pdf_file cdr_file
    simp [form_add_submit]
  · intro faca_id name description pdf_info cdr_info thumb_path r hr hid
    refine ⟨mem_update_table st faca_id name description pdf_info cdr_info thumb_path hr hid, ?_⟩
    cases pdf_info <;> cases cdr_info <;> simp [updateRow]

/-- Witness for the amended C3: the add form rejects the empty name on
`stA`, and updating `facaA` with the empty name stores exactly that empty
name. -/
theorem name_validation_semantics_witness :
    form_add_submit stA "t" "u1" "u2" "" "d" none none =
      Except.error "É necessário informar um nome." ∧
    (updateRow "" (some "d") none none none facaA ∈
        (update_faca_db stA 1 "" (some "d") none none none).table ∧
      (updateRow "" (some "d") none none none facaA).name = "") :=
  ⟨(name_validation_semantics stA).1 "t" "u1" "u2" "d" none none,
   (name_validation_semantics stA).2 1 "" (some "d") none none none facaA
     (by decide) rfl⟩

/-- Claim C4, counterexample: the claim's plain-substring reading of search
is refuted by the `LIKE` queries the code runs.  With the single entry
`facaLower` (name `a`, `NULL` description), the search term `_` — which the
entry's name does not contain as a substring — still returns the entry
(`_` is a `LIKE` wildcard), and so does the term `A` (`LIKE` compares ASCII
case-insensitively). -/
theorem list_search_not_plain_substring :
    get_facas_db stLower "_" = [facaLower] ∧
    specContainsSubstring "_" facaLower.name = false ∧
    get_facas_db stLower "A" = [facaLower] ∧
    specContainsSubstring "A" facaLower.name = false ∧
    facaLower.description = none := by
  decide

/-- Claim C4 as amended: `get_facas_db` with a non-empty term returns
exactly the entries whose name or (non-`NULL`) description matches the
SQLite pattern `%term%` — ASCII-case-insensitive, with `%` matching any
sequence and `_` matching any single character — and with the empty term it
returns all entries; in both cases the result is ordered by `uploaded_at`
descending. -/
theorem get_facas_db_like_spec (st : AppState) (search : String) :
    (∀ r : Faca, r ∈ get_facas_db st search ↔
      r ∈ st.table ∧ (search = "" ∨ likeRow search r = true)) ∧
    (get_facas_db st search).Pairwise uploadedGe := by
  unfold get_facas_db
  by_cases h : search = ""
  · subst h
    refine ⟨fun r => ?_, List.sorted_insertionSort uploadedGe st.table⟩
    simp [List.mem_insertionSort]
  · rw [if_neg h]
    refine ⟨fun r => ?_, List.sorted_insertionSort uploadedGe _⟩
    simp [List.mem_insertionSort, List.mem_filter, h]

/-- Witness for the amended C4 at a concrete state and term. -/
theorem get_facas_db_like_spec_witness :
    (facaLower ∈ get_facas_db stLower "A" ↔
      facaLower ∈ stLower.table ∧ ("A" = "" ∨ likeRow "A" facaLower = true)) ∧
    (get_facas_db stLower "A").Pairwise uploadedGe :=
  ⟨(get_facas_db_like_spec stLower "A").1 facaLower,
   (get_facas_db_like_spec stLower "A").2⟩

end Facas
